import Mathlib

/-
Verification of the MPI lowering layer in pyccel/parallel/mpi.py.

The file shallowly embeds the module: buffer descriptors (pyccel Variable,
IndexedVariable, IndexedElement), the shape resolver get_shape, the datatype
mapper mpi_datatype, the module-level singleton slots MPI_ERROR and
MPI_STATUS, and the per-operation argument-list construction performed by
each class's sympystr printing hook.  Counts are kept as symbolic products
(an integer coefficient times a sorted multiset of named extents), mirroring
how sympy normalises a product of Integer and Symbol objects.
-/

/-- Scalar datatypes of pyccel variables (pyccel.types.ast; not under src).
Modelled from the spec: the scalar dtype set is Bool, Integer, Float, Double,
Complex, Character; MPI_status_type is the status record type declared in
mpi.py; custom covers DataTypeFactory-created aggregate types, which subclass
DataType but none of the Native scalar classes. -/
inductive PDataType where
  | NativeBool
  | NativeInteger
  | NativeFloat
  | NativeDouble
  | NativeComplex
  | NativeCharacter
  | MPI_status_type
  | custom (name : String)
deriving DecidableEq

/-- One dimension extent of a declared shape: a literal integer or a named
compile-time symbol (sympy Integer or Symbol). -/
inductive Extent where
  | lit (n : Int)
  | sym (name : String)
deriving DecidableEq

/-- The shape attribute of a pyccel Variable: None, a bare non-sequence
value, or a list or tuple of extents. -/
inductive Shape where
  | noShape
  | single (e : Extent)
  | seq (extents : List Extent)
deriving DecidableEq

/-- A pyccel Variable record (pyccel.types.ast; not under src).  Modelled
from the spec: name, scalar dtype, shape (ordered extents), rank, and an
allocatable flag. -/
structure Variable where
  dtype : PDataType
  name : String
  rank : Nat := 0
  shape : Shape := Shape.noShape
  allocatable : Bool := false
deriving DecidableEq

/-- Expressions that can appear as operands of an MPI operation: a Variable,
an IndexedVariable, an IndexedElement (an indexed access whose base is
another expression), the mpi.py singleton constants, or any other object
(which get_shape rejects). -/
inductive PExpr where
  | var (v : Variable)
  | indexedVar (v : Variable)
  | indexedElement (base : PExpr) (indices : List Extent)
  | commWorld
  | procNull
  | statusSize
  | other (descr : String)
deriving DecidableEq

/-- A symbolic count: an integer coefficient times a product of named
extents, the normal form sympy keeps a Mul of Integers and Symbols in. -/
structure SymProd where
  coeff : Int
  vars : List String
deriving DecidableEq

/-- The multiplicative unit, sympy integer 1. -/
def SymProd.one : SymProd := ⟨1, []⟩

/-- Insert a symbol name into a sorted list of names, mirroring sympy's
canonical ordering of the factors of a Mul. -/
def insertVar (s : String) : List String → List String
  | [] => [s]
  | t :: ts => if s ≤ t then s :: t :: ts else t :: insertVar s ts

/-- Multiply a symbolic product by one extent: a literal multiplies the
coefficient, a symbol joins the sorted factor list. -/
def SymProd.mulExtent (p : SymProd) : Extent → SymProd
  | Extent.lit n => ⟨p.coeff * n, p.vars⟩
  | Extent.sym s => ⟨p.coeff, insertVar s p.vars⟩

/-- View a single extent as a symbolic product. -/
def extentToProd : Extent → SymProd
  | Extent.lit n => ⟨n, []⟩
  | Extent.sym s => ⟨1, [s]⟩

/-- The count derived from a Variable's shape attribute, following the body
of get_shape (mpi.py lines 21-31): None gives 1, a list or tuple gives the
left fold of multiplication starting from 1, a bare value is returned as
it stands. -/
def shapeCount : Shape → SymProd
  | Shape.noShape => SymProd.one
  | Shape.single e => extentToProd e
  | Shape.seq es => es.foldl SymProd.mulExtent SymProd.one

/-- get_shape (mpi.py lines 16-33): defined for Variable, IndexedVariable and
IndexedElement only; an IndexedElement delegates to its base; anything else
raises TypeError. -/
def get_shape : PExpr → Except String SymProd
  | PExpr.var v => Except.ok (shapeCount v.shape)
  | PExpr.indexedVar v => Except.ok (shapeCount v.shape)
  | PExpr.indexedElement base _ => get_shape base
  | PExpr.commWorld =>
      Except.error "shape is only defined for Variable, IndexedVariable, IndexedElement"
  | PExpr.procNull =>
      Except.error "shape is only defined for Variable, IndexedVariable, IndexedElement"
  | PExpr.statusSize =>
      Except.error "shape is only defined for Variable, IndexedVariable, IndexedElement"
  | PExpr.other _ =>
      Except.error "shape is only defined for Variable, IndexedVariable, IndexedElement"

/-- The dtype attribute read by the datatype properties (self.data.dtype):
a Variable or IndexedVariable carries its declared dtype, an IndexedElement
delegates to its base (modelled from the spec: an IndexedView delegates its
queries to its base descriptor), and any other object has no such
attribute. -/
def dtypeAttr : PExpr → Except String PDataType
  | PExpr.var v => Except.ok v.dtype
  | PExpr.indexedVar v => Except.ok v.dtype
  | PExpr.indexedElement base _ => dtypeAttr base
  | PExpr.commWorld => Except.error "object has no attribute dtype"
  | PExpr.procNull => Except.error "object has no attribute dtype"
  | PExpr.statusSize => Except.error "object has no attribute dtype"
  | PExpr.other _ => Except.error "object has no attribute dtype"

/-- mpi_datatype (mpi.py lines 135-148): the five Native scalar types map to
their wire tags, every other datatype raises TypeError. -/
def mpi_datatype : PDataType → Except String String
  | PDataType.NativeInteger => Except.ok "MPI_INT"
  | PDataType.NativeFloat => Except.ok "MPI_REAL"
  | PDataType.NativeDouble => Except.ok "MPI_DOUBLE"
  | PDataType.NativeBool => Except.ok "MPI_LOGICAL"
  | PDataType.NativeComplex => Except.ok "MPI_COMPLEX"
  | PDataType.NativeCharacter => Except.error "Uncovered datatype"
  | PDataType.MPI_status_type => Except.error "Uncovered datatype"
  | PDataType.custom _ => Except.error "Uncovered datatype"

/-- The module-level error slot, MPI_ERROR = Variable of int named
i_mpi_error (mpi.py line 1122), created once at import. -/
def MPI_ERROR : Variable :=
  { dtype := PDataType.NativeInteger, name := "i_mpi_error" }

/-- The module-level status slot, MPI_STATUS = Variable of MPI_status_type
named i_mpi_status (mpi.py line 1123), created once at import. -/
def MPI_STATUS : Variable :=
  { dtype := PDataType.MPI_status_type, name := "i_mpi_status" }

instance {ε α : Type} [DecidableEq ε] [DecidableEq α] : DecidableEq (Except ε α) :=
  fun x y =>
    match x, y with
    | Except.ok a, Except.ok b =>
        if h : a = b then isTrue (by rw [h]) else isFalse (by intro hc; cases hc; exact h rfl)
    | Except.error a, Except.error b =>
        if h : a = b then isTrue (by rw [h]) else isFalse (by intro hc; cases hc; exact h rfl)
    | Except.ok _, Except.error _ => isFalse (by intro hc; cases hc)
    | Except.error _, Except.ok _ => isFalse (by intro hc; cases hc)

/-- An MPI operation object: a sympy Basic instance holding the tuple of
arguments it was constructed with (self.args). -/
structure MPIObj where
  args : List PExpr
deriving DecidableEq

/-- Construction-time failures named by the spec. -/
inductive ConstructError where
  | malformedOperation (msg : String)
deriving DecidableEq

/-- The new hook shared by every operation class in mpi.py: each class's
new simply delegates to the sympy Basic constructor with the operands
unchanged and performs no validation, so construction always succeeds. -/
def mpi_new (args : List PExpr) : Except ConstructError MPIObj :=
  Except.ok ⟨args⟩

/-- Reading self.args at a position: returns the operand there, or the
IndexError a Python tuple raises when the index is out of range. -/
def MPIObj.getArg (op : MPIObj) (i : Nat) : Except String PExpr :=
  match op.args[i]? with
  | some a => Except.ok a
  | none => Except.error "IndexError: tuple index out of range"

/-- One entry of a lowered argument list: an operand object carried through
unchanged, a computed symbolic count, or a wire datatype tag string. -/
inductive Arg where
  | expr (e : PExpr)
  | count (c : SymProd)
  | dtypeTag (t : String)
deriving DecidableEq

/-- The send argument list assembled by MPI_comm_send's sympystr hook
(mpi.py lines 346-360): data, count, datatype, dest, tag, comm, ierr. -/
def MPI_send_args (op : MPIObj) : Except String (List Arg) :=
  match op.getArg 0 with
  | Except.error e => Except.error e
  | Except.ok data =>
    match op.getArg 1 with
    | Except.error e => Except.error e
    | Except.ok dest =>
      match op.getArg 2 with
      | Except.error e => Except.error e
      | Except.ok tag =>
        match op.getArg 3 with
        | Except.error e => Except.error e
        | Except.ok comm =>
          match get_shape data with
          | Except.error e => Except.error e
          | Except.ok cnt =>
            match dtypeAttr data with
            | Except.error e => Except.error e
            | Except.ok dt =>
              match mpi_datatype dt with
              | Except.error e => Except.error e
              | Except.ok t =>
                Except.ok [Arg.expr data, Arg.count cnt, Arg.dtypeTag t,
                  Arg.expr dest, Arg.expr tag, Arg.expr comm,
                  Arg.expr (PExpr.var MPI_ERROR)]

/-- The recv argument list assembled by MPI_comm_recv's sympystr hook
(mpi.py lines 267-283): data, count, datatype, source, tag, comm, istatus,
ierr. -/
def MPI_recv_args (op : MPIObj) : Except String (List Arg) :=
  match op.getArg 0 with
  | Except.error e => Except.error e
  | Except.ok data =>
    match op.getArg 1 with
    | Except.error e => Except.error e
    | Except.ok source =>
      match op.getArg 2 with
      | Except.error e => Except.error e
      | Except.ok tag =>
        match op.getArg 3 with
        | Except.error e => Except.error e
        | Except.ok comm =>
          match get_shape data with
          | Except.error e => Except.error e
          | Except.ok cnt =>
            match dtypeAttr data with
            | Except.error e => Except.error e
            | Except.ok dt =>
              match mpi_datatype dt with
              | Except.error e => Except.error e
              | Except.ok t =>
                Except.ok [Arg.expr data, Arg.count cnt, Arg.dtypeTag t,
                  Arg.expr source, Arg.expr tag, Arg.expr comm,
                  Arg.expr (PExpr.var MPI_STATUS), Arg.expr (PExpr.var MPI_ERROR)]

/-- The isend argument list assembled by MPI_comm_isend's sympystr hook
(mpi.py lines 523-538): data, count, datatype, dest, tag, comm, request,
ierr. -/
def MPI_isend_args (op : MPIObj) : Except String (List Arg) :=
  match op.getArg 0 with
  | Except.error e => Except.error e
  | Except.ok data =>
    match op.getArg 1 with
    | Except.error e => Except.error e
    | Except.ok dest =>
      match op.getArg 2 with
      | Except.error e => Except.error e
      | Except.ok tag =>
        match op.getArg 3 with
        | Except.error e => Except.error e
        | Except.ok request =>
          match op.getArg 4 with
          | Except.error e => Except.error e
          | Except.ok comm =>
            match get_shape data with
            | Except.error e => Except.error e
            | Except.ok cnt =>
              match dtypeAttr data with
              | Except.error e => Except.error e
              | Except.ok dt =>
                match mpi_datatype dt with
                | Except.error e => Except.error e
                | Except.ok t =>
                  Except.ok [Arg.expr data, Arg.count cnt, Arg.dtypeTag t,
                    Arg.expr dest, Arg.expr tag, Arg.expr comm,
                    Arg.expr request, Arg.expr (PExpr.var MPI_ERROR)]

/-- The irecv argument list assembled by MPI_comm_irecv's sympystr hook
(mpi.py lines 437-453): data, count, datatype, source, tag, comm, request,
ierr. -/
def MPI_irecv_args (op : MPIObj) : Except String (List Arg) :=
  match op.getArg 0 with
  | Except.error e => Except.error e
  | Except.ok data =>
    match op.getArg 1 with
    | Except.error e => Except.error e
    | Except.ok source =>
      match op.getArg 2 with
      | Except.error e => Except.error e
      | Except.ok tag =>
        match op.getArg 3 with
        | Except.error e => Except.error e
        | Except.ok request =>
          match op.getArg 4 with
          | Except.error e => Except.error e
          | Except.ok comm =>
            match get_shape data with
            | Except.error e => Except.error e
            | Except.ok cnt =>
              match dtypeAttr data with
              | Except.error e => Except.error e
              | Except.ok dt =>
                match mpi_datatype dt with
                | Except.error e => Except.error e
                | Except.ok t =>
                  Except.ok [Arg.expr data, Arg.count cnt, Arg.dtypeTag t,
                    Arg.expr source, Arg.expr tag, Arg.expr comm,
                    Arg.expr request, Arg.expr (PExpr.var MPI_ERROR)]

/-- The sendrecv argument list assembled by MPI_comm_sendrecv's sympystr
hook (mpi.py lines 647-669): senddata, sendcount, sendtype, dest, sendtag,
recvdata, recvcount, recvtype, source, recvtag, comm, istatus, ierr. -/
def MPI_sendrecv_args (op : MPIObj) : Except String (List Arg) :=
  match op.getArg 0 with
  | Except.error e => Except.error e
  | Except.ok senddata =>
    match op.getArg 1 with
    | Except.error e => Except.error e
    | Except.ok dest =>
      match op.getArg 2 with
      | Except.error e => Except.error e
      | Except.ok sendtag =>
        match op.getArg 3 with
        | Except.error e => Except.error e
        | Except.ok recvdata =>
          match op.getArg 4 with
          | Except.error e => Except.error e
          | Except.ok source =>
            match op.getArg 5 with
            | Except.error e => Except.error e
            | Except.ok recvtag =>
              match op.getArg 6 with
              | Except.error e => Except.error e
              | Except.ok comm =>
                match get_shape senddata, get_shape recvdata with
                | Except.error e, _ => Except.error e
                | _, Except.error e => Except.error e
                | Except.ok sendcnt, Except.ok recvcnt =>
                  match dtypeAttr senddata, dtypeAttr recvdata with
                  | Except.error e, _ => Except.error e
                  | _, Except.error e => Except.error e
                  | Except.ok sdt, Except.ok rdt =>
                    match mpi_datatype sdt, mpi_datatype rdt with
                    | Except.error e, _ => Except.error e
                    | _, Except.error e => Except.error e
                    | Except.ok st, Except.ok rt =>
                      Except.ok [Arg.expr senddata, Arg.count sendcnt,
                        Arg.dtypeTag st, Arg.expr dest, Arg.expr sendtag,
                        Arg.expr recvdata, Arg.count recvcnt, Arg.dtypeTag rt,
                        Arg.expr source, Arg.expr recvtag, Arg.expr comm,
                        Arg.expr (PExpr.var MPI_STATUS), Arg.expr (PExpr.var MPI_ERROR)]

/-- The sendrecv_replace argument list assembled by the sympystr hook of
MPI_comm_sendrecv_replace (mpi.py lines 756-774): data, count, datatype,
dest, sendtag, source, recvtag, comm, istatus, ierr. -/
def MPI_sendrecv_replace_args (op : MPIObj) : Except String (List Arg) :=
  match op.getArg 0 with
  | Except.error e => Except.error e
  | Except.ok data =>
    match op.getArg 1 with
    | Except.error e => Except.error e
    | Except.ok dest =>
      match op.getArg 2 with
      | Except.error e => Except.error e
      | Except.ok sendtag =>
        match op.getArg 3 with
        | Except.error e => Except.error e
        | Except.ok source =>
          match op.getArg 4 with
          | Except.error e => Except.error e
          | Except.ok recvtag =>
            match op.getArg 5 with
            | Except.error e => Except.error e
            | Except.ok comm =>
              match get_shape data with
              | Except.error e => Except.error e
              | Except.ok cnt =>
                match dtypeAttr data with
                | Except.error e => Except.error e
                | Except.ok dt =>
                  match mpi_datatype dt with
                  | Except.error e => Except.error e
                  | Except.ok t =>
                    Except.ok [Arg.expr data, Arg.count cnt, Arg.dtypeTag t,
                      Arg.expr dest, Arg.expr sendtag, Arg.expr source,
                      Arg.expr recvtag, Arg.expr comm,
                      Arg.expr (PExpr.var MPI_STATUS), Arg.expr (PExpr.var MPI_ERROR)]

/-- The waitall argument list assembled by MPI_waitall's sympystr hook
(mpi.py lines 811-822): count, requests, status, ierr, where count is the
shape of the requests array. -/
def MPI_waitall_args (op : MPIObj) : Except String (List Arg) :=
  match op.getArg 0 with
  | Except.error e => Except.error e
  | Except.ok requests =>
    match op.getArg 1 with
    | Except.error e => Except.error e
    | Except.ok stat =>
      match get_shape requests with
      | Except.error e => Except.error e
      | Except.ok cnt =>
        Except.ok [Arg.count cnt, Arg.expr requests, Arg.expr stat,
          Arg.expr (PExpr.var MPI_ERROR)]

/-- The bcast argument list assembled by MPI_comm_bcast's sympystr hook
(mpi.py lines 906-919): data, count, datatype, root, comm, ierr. -/
def MPI_bcast_args (op : MPIObj) : Except String (List Arg) :=
  match op.getArg 0 with
  | Except.error e => Except.error e
  | Except.ok data =>
    match op.getArg 1 with
    | Except.error e => Except.error e
    | Except.ok root =>
      match op.getArg 2 with
      | Except.error e => Except.error e
      | Except.ok comm =>
        match get_shape data with
        | Except.error e => Except.error e
        | Except.ok cnt =>
          match dtypeAttr data with
          | Except.error e => Except.error e
          | Except.ok dt =>
            match mpi_datatype dt with
            | Except.error e => Except.error e
            | Except.ok t =>
              Except.ok [Arg.expr data, Arg.count cnt, Arg.dtypeTag t,
                Arg.expr root, Arg.expr comm, Arg.expr (PExpr.var MPI_ERROR)]

/-- The scatter argument list assembled by MPI_comm_scatter's sympystr hook
(mpi.py lines 1002-1019): senddata, sendcount, sendtype, recvdata,
recvcount, recvtype, root, comm, ierr. -/
def MPI_scatter_args (op : MPIObj) : Except String (List Arg) :=
  match op.getArg 0 with
  | Except.error e => Except.error e
  | Except.ok senddata =>
    match op.getArg 1 with
    | Except.error e => Except.error e
    | Except.ok recvdata =>
      match op.getArg 2 with
      | Except.error e => Except.error e
      | Except.ok root =>
        match op.getArg 3 with
        | Except.error e => Except.error e
        | Except.ok comm =>
          match get_shape senddata, get_shape recvdata with
          | Except.error e, _ => Except.error e
          | _, Except.error e => Except.error e
          | Except.ok sendcnt, Except.ok recvcnt =>
            match dtypeAttr senddata, dtypeAttr recvdata with
            | Except.error e, _ => Except.error e
            | _, Except.error e => Except.error e
            | Except.ok sdt, Except.ok rdt =>
              match mpi_datatype sdt, mpi_datatype rdt with
              | Except.error e, _ => Except.error e
              | _, Except.error e => Except.error e
              | Except.ok st, Except.ok rt =>
                Except.ok [Arg.expr senddata, Arg.count sendcnt, Arg.dtypeTag st,
                  Arg.expr recvdata, Arg.count recvcnt, Arg.dtypeTag rt,
                  Arg.expr root, Arg.expr comm, Arg.expr (PExpr.var MPI_ERROR)]

/-- The gather argument list assembled by MPI_comm_gather's sympystr hook
(mpi.py lines 1101-1118), identical in shape to scatter. -/
def MPI_gather_args (op : MPIObj) : Except String (List Arg) :=
  match op.getArg 0 with
  | Except.error e => Except.error e
  | Except.ok senddata =>
    match op.getArg 1 with
    | Except.error e => Except.error e
    | Except.ok recvdata =>
      match op.getArg 2 with
      | Except.error e => Except.error e
      | Except.ok root =>
        match op.getArg 3 with
        | Except.error e => Except.error e
        | Except.ok comm =>
          match get_shape senddata, get_shape recvdata with
          | Except.error e, _ => Except.error e
          | _, Except.error e => Except.error e
          | Except.ok sendcnt, Except.ok recvcnt =>
            match dtypeAttr senddata, dtypeAttr recvdata with
            | Except.error e, _ => Except.error e
            | _, Except.error e => Except.error e
            | Except.ok sdt, Except.ok rdt =>
              match mpi_datatype sdt, mpi_datatype rdt with
              | Except.error e, _ => Except.error e
              | _, Except.error e => Except.error e
              | Except.ok st, Except.ok rt =>
                Except.ok [Arg.expr senddata, Arg.count sendcnt, Arg.dtypeTag st,
                  Arg.expr recvdata, Arg.count recvcnt, Arg.dtypeTag rt,
                  Arg.expr root, Arg.expr comm, Arg.expr (PExpr.var MPI_ERROR)]

/-- The ten call-style operation variants of mpi.py, each wrapping the
object it was constructed as. -/
inductive MPIOp where
  | send (op : MPIObj)
  | recv (op : MPIObj)
  | isend (op : MPIObj)
  | irecv (op : MPIObj)
  | sendrecv (op : MPIObj)
  | sendrecvReplace (op : MPIObj)
  | waitall (op : MPIObj)
  | bcast (op : MPIObj)
  | scatter (op : MPIObj)
  | gather (op : MPIObj)
deriving DecidableEq

/-- Lowering of a call-style operation: the call name used by its sympystr
hook together with the ordered argument list it assembles. -/
def lowerCall : MPIOp → Except String (String × List Arg)
  | MPIOp.send op => Except.map (fun as => ("MPI_send", as)) (MPI_send_args op)
  | MPIOp.recv op => Except.map (fun as => ("MPI_recv", as)) (MPI_recv_args op)
  | MPIOp.isend op => Except.map (fun as => ("MPI_isend", as)) (MPI_isend_args op)
  | MPIOp.irecv op => Except.map (fun as => ("MPI_irecv", as)) (MPI_irecv_args op)
  | MPIOp.sendrecv op => Except.map (fun as => ("MPI_sendrecv", as)) (MPI_sendrecv_args op)
  | MPIOp.sendrecvReplace op =>
      Except.map (fun as => ("MPI_sendrecv_replace", as)) (MPI_sendrecv_replace_args op)
  | MPIOp.waitall op => Except.map (fun as => ("MPI_waitall", as)) (MPI_waitall_args op)
  | MPIOp.bcast op => Except.map (fun as => ("MPI_bcast", as)) (MPI_bcast_args op)
  | MPIOp.scatter op => Except.map (fun as => ("MPI_scatter", as)) (MPI_scatter_args op)
  | MPIOp.gather op => Except.map (fun as => ("MPI_gather", as)) (MPI_gather_args op)

/-- Whether a variant's sympystr hook inserts the module-level status slot
into its argument list (recv, sendrecv, sendrecv_replace do; no other
variant does). -/
def MPIOp.usesStatusSlot : MPIOp → Bool
  | MPIOp.recv _ => true
  | MPIOp.sendrecv _ => true
  | MPIOp.sendrecvReplace _ => true
  | _ => false

/-- Join rendered pieces with a separator, as str.join does. -/
def joinWith (sep : String) : List String → String
  | [] => ""
  | [s] => s
  | s :: t :: rest => s ++ sep ++ joinWith sep (t :: rest)

/-- Render one extent the way the sympy printer does. -/
def renderExtent : Extent → String
  | Extent.lit n => toString n
  | Extent.sym s => s

/-- Render a symbolic count the way sympy prints a Mul of an Integer
coefficient and Symbols: coefficient first, factors joined by stars, a unit
coefficient omitted. -/
def renderSymProd (p : SymProd) : String :=
  match p.vars with
  | [] => toString p.coeff
  | vs => if p.coeff = 1 then joinWith "*" vs
          else toString p.coeff ++ "*" ++ joinWith "*" vs

/-- Render an operand the way the sympy str printer does: a variable prints
its name, an indexed access prints base and bracketed indices, and the
mpi.py constants print through their sympystr hooks (mpi.py lines 66-100). -/
def renderPExpr : PExpr → String
  | PExpr.var v => v.name
  | PExpr.indexedVar v => v.name
  | PExpr.indexedElement base idx =>
      renderPExpr base ++ "[" ++ joinWith ", " (idx.map renderExtent) ++ "]"
  | PExpr.commWorld => "mpi_comm_world"
  | PExpr.procNull => "mpi_proc_null"
  | PExpr.statusSize => "mpi_status_size"
  | PExpr.other d => d

/-- Render one lowered argument. -/
def renderArg : Arg → String
  | Arg.expr e => renderPExpr e
  | Arg.count c => renderSymProd c
  | Arg.dtypeTag t => t

/-- The full rendering of a lowered call, as each sympystr hook formats it:
the call name, a space, and the comma-joined arguments in parentheses. -/
def renderCall (op : MPIOp) : Except String String :=
  Except.map (fun nb => nb.1 ++ " (" ++ joinWith ", " (nb.2.map renderArg) ++ ")")
    (lowerCall op)

/-- MPI_comm_size's sympystr hook (mpi.py lines 175-177): the communicator
operand rendered with a .size suffix. -/
def MPI_comm_size_sympystr (op : MPIObj) : Except String String :=
  match op.getArg 0 with
  | Except.error e => Except.error e
  | Except.ok comm => Except.ok (renderPExpr comm ++ ".size")

/-- How an MPI_comm_rank object is rendered: the class defines no sympystr
hook (mpi.py lines 179-198, in contrast with MPI_comm_size at 175-177), so
the sympy str printer falls back to its default printing of a Basic node,
the class name followed by the parenthesised comma-joined arguments.  The
fallback is the documented behaviour of the external sympy library. -/
def MPI_comm_rank_render (op : MPIObj) : String :=
  "MPI_comm_rank(" ++ joinWith ", " (op.args.map renderPExpr) ++ ")"

/-- MPI_comm_barrier's sympystr hook (mpi.py lines 848-850): the
communicator operand rendered with a .barrier suffix. -/
def MPI_comm_barrier_sympystr (op : MPIObj) : Except String String :=
  match op.getArg 0 with
  | Except.error e => Except.error e
  | Except.ok comm => Except.ok (renderPExpr comm ++ ".barrier")

/-- The operand list of a Send built with a malformed communicator operand:
data, dest and tag are well-formed, the communicator slot holds a plain
non-communicator object. -/
def badSendOperands : List PExpr :=
  [PExpr.var ⟨PDataType.NativeDouble, "x", 2, Shape.seq [Extent.sym "n", Extent.lit 2], true⟩,
   PExpr.var ⟨PDataType.NativeInteger, "dest", 0, Shape.noShape, false⟩,
   PExpr.var ⟨PDataType.NativeInteger, "tag", 0, Shape.noShape, false⟩,
   PExpr.other "not_a_communicator"]

/-- The array variable of the module docstrings: double x of shape (n, 2). -/
def xW : PExpr :=
  PExpr.var ⟨PDataType.NativeDouble, "x", 2, Shape.seq [Extent.sym "n", Extent.lit 2], true⟩

/-- The integer source variable of the module docstrings. -/
def srcW : PExpr := PExpr.var ⟨PDataType.NativeInteger, "source", 0, Shape.noShape, false⟩

/-- The integer dest variable of the module docstrings. -/
def destW : PExpr := PExpr.var ⟨PDataType.NativeInteger, "dest", 0, Shape.noShape, false⟩

/-- The integer tag variable of the module docstrings. -/
def tagW : PExpr := PExpr.var ⟨PDataType.NativeInteger, "tag", 0, Shape.noShape, false⟩

/-- The requests array of the module docstrings: rank 1, bare shape 4. -/
def reqW : PExpr :=
  PExpr.var ⟨PDataType.NativeInteger, "requests", 1, Shape.single (Extent.lit 4), true⟩

/-- The lowered argument list of the docstring Recv example. -/
def recvArgsW : List Arg :=
  [Arg.expr xW, Arg.count ⟨2, ["n"]⟩, Arg.dtypeTag "MPI_DOUBLE", Arg.expr srcW,
   Arg.expr tagW, Arg.expr PExpr.commWorld, Arg.expr (PExpr.var MPI_STATUS),
   Arg.expr (PExpr.var MPI_ERROR)]

/-- The lowered argument list of the docstring Send example. -/
def sendArgsW : List Arg :=
  [Arg.expr xW, Arg.count ⟨2, ["n"]⟩, Arg.dtypeTag "MPI_DOUBLE", Arg.expr destW,
   Arg.expr tagW, Arg.expr PExpr.commWorld, Arg.expr (PExpr.var MPI_ERROR)]

/-- The lowered argument list of the docstring isend example. -/
def isendArgsW : List Arg :=
  [Arg.expr xW, Arg.count ⟨2, ["n"]⟩, Arg.dtypeTag "MPI_DOUBLE", Arg.expr destW,
   Arg.expr tagW, Arg.expr PExpr.commWorld, Arg.expr reqW,
   Arg.expr (PExpr.var MPI_ERROR)]

/-- The lowered argument list of the docstring irecv example. -/
def irecvArgsW : List Arg :=
  [Arg.expr xW, Arg.count ⟨2, ["n"]⟩, Arg.dtypeTag "MPI_DOUBLE", Arg.expr srcW,
   Arg.expr tagW, Arg.expr PExpr.commWorld, Arg.expr reqW,
   Arg.expr (PExpr.var MPI_ERROR)]

/-- The full rendering of the docstring Send example reproduces the
docstring output character for character. -/
theorem renderCall_send_matches_docstring :
    renderCall (MPIOp.send ⟨[PExpr.var ⟨PDataType.NativeDouble, "x", 2,
    Shape.seq [Extent.sym "n", Extent.lit 2], true⟩,
    PExpr.var ⟨PDataType.NativeInteger, "dest", 0, Shape.noShape, false⟩,
    PExpr.var ⟨PDataType.NativeInteger, "tag", 0, Shape.noShape, false⟩,
    PExpr.commWorld]⟩) =
    Except.ok "MPI_send (x, 2*n, MPI_DOUBLE, dest, tag, mpi_comm_world, i_mpi_error)" := by
  rfl

/-- An operand read successfully from the argument tuple is one of the
object's arguments. -/
theorem getArg_mem {op : MPIObj} {i : Nat} {a : PExpr}
    (h : op.getArg i = Except.ok a) : a ∈ op.args := by
  unfold MPIObj.getArg at h
  split at h
  · injection h with h
    subst h
    exact List.getElem?_mem (by assumption)
  · exact Except.noConfusion h

/-- Inversion of the send argument list: a successful lowering names the
four operands and the derived count and tag, and the list is exactly the
seven-slot send convention. -/
theorem MPI_send_args_inv {op : MPIObj} {as : List Arg}
    (h : MPI_send_args op = Except.ok as) :
    ∃ data dest tag comm cnt dt t,
      op.getArg 0 = Except.ok data ∧ op.getArg 1 = Except.ok dest ∧
      op.getArg 2 = Except.ok tag ∧ op.getArg 3 = Except.ok comm ∧
      get_shape data = Except.ok cnt ∧ dtypeAttr data = Except.ok dt ∧
      mpi_datatype dt = Except.ok t ∧
      as = [Arg.expr data, Arg.count cnt, Arg.dtypeTag t, Arg.expr dest,
            Arg.expr tag, Arg.expr comm, Arg.expr (PExpr.var MPI_ERROR)] := by
  unfold MPI_send_args at h
  repeat' split at h
  all_goals try exact Except.noConfusion h
  injection h with h
  exact ⟨_, _, _, _, _, _, _, by assumption, by assumption, by assumption,
    by assumption, by assumption, by assumption, by assumption, h.symm⟩

/-- Inversion of the recv argument list: a successful lowering names the
four operands and the derived count and tag, and the list is exactly the
eight-slot recv convention, status then error at the end. -/
theorem MPI_recv_args_inv {op : MPIObj} {as : List Arg}
    (h : MPI_recv_args op = Except.ok as) :
    ∃ data source tag comm cnt dt t,
      op.getArg 0 = Except.ok data ∧ op.getArg 1 = Except.ok source ∧
      op.getArg 2 = Except.ok tag ∧ op.getArg 3 = Except.ok comm ∧
      get_shape data = Except.ok cnt ∧ dtypeAttr data = Except.ok dt ∧
      mpi_datatype dt = Except.ok t ∧
      as = [Arg.expr data, Arg.count cnt, Arg.dtypeTag t, Arg.expr source,
            Arg.expr tag, Arg.expr comm, Arg.expr (PExpr.var MPI_STATUS),
            Arg.expr (PExpr.var MPI_ERROR)] := by
  unfold MPI_recv_args at h
  repeat' split at h
  all_goals try exact Except.noConfusion h
  injection h with h
  exact ⟨_, _, _, _, _, _, _, by assumption, by assumption, by assumption,
    by assumption, by assumption, by assumption, by assumption, h.symm⟩

/-- Inversion of the isend argument list: a successful lowering names the
five operands and the derived count and tag, and the list is exactly the
eight-slot isend convention, request then error at the end. -/
theorem MPI_isend_args_inv {op : MPIObj} {as : List Arg}
    (h : MPI_isend_args op = Except.ok as) :
    ∃ data dest tag request comm cnt dt t,
      op.getArg 0 = Except.ok data ∧ op.getArg 1 = Except.ok dest ∧
      op.getArg 2 = Except.ok tag ∧ op.getArg 3 = Except.ok request ∧
      op.getArg 4 = Except.ok comm ∧
      get_shape data = Except.ok cnt ∧ dtypeAttr data = Except.ok dt ∧
      mpi_datatype dt = Except.ok t ∧
      as = [Arg.expr data, Arg.count cnt, Arg.dtypeTag t, Arg.expr dest,
            Arg.expr tag, Arg.expr comm, Arg.expr request,
            Arg.expr (PExpr.var MPI_ERROR)] := by
  unfold MPI_isend_args at h
  repeat' split at h
  all_goals try exact Except.noConfusion h
  injection h with h
  exact ⟨_, _, _, _, _, _, _, _, by assumption, by assumption, by assumption,
    by assumption, by assumption, by assumption, by assumption, by assumption, h.symm⟩

/-- Inversion of the irecv argument list: a successful lowering names the
five operands and the derived count and tag, and the list is exactly the
eight-slot irecv convention, request then error at the end. -/
theorem MPI_irecv_args_inv {op : MPIObj} {as : List Arg}
    (h : MPI_irecv_args op = Except.ok as) :
    ∃ data source tag request comm cnt dt t,
      op.getArg 0 = Except.ok data ∧ op.getArg 1 = Except.ok source ∧
      op.getArg 2 = Except.ok tag ∧ op.getArg 3 = Except.ok request ∧
      op.getArg 4 = Except.ok comm ∧
      get_shape data = Except.ok cnt ∧ dtypeAttr data = Except.ok dt ∧
      mpi_datatype dt = Except.ok t ∧
      as = [Arg.expr data, Arg.count cnt, Arg.dtypeTag t, Arg.expr source,
            Arg.expr tag, Arg.expr comm, Arg.expr request,
            Arg.expr (PExpr.var MPI_ERROR)] := by
  unfold MPI_irecv_args at h
  repeat' split at h
  all_goals try exact Except.noConfusion h
  injection h with h
  exact ⟨_, _, _, _, _, _, _, _, by assumption, by assumption, by assumption,
    by assumption, by assumption, by assumption, by assumption, by assumption, h.symm⟩

/-- Every successful send lowering ends in the module-level error slot. -/
theorem MPI_send_args_slots {op : MPIObj} {as : List Arg}
    (h : MPI_send_args op = Except.ok as) :
    as.getLast? = some (Arg.expr (PExpr.var MPI_ERROR)) := by
  unfold MPI_send_args at h
  repeat' split at h
  all_goals try exact Except.noConfusion h
  injection h with h
  subst h
  rfl

/-- Every successful recv lowering ends in the module-level error slot,
preceded immediately by the module-level status slot. -/
theorem MPI_recv_args_slots {op : MPIObj} {as : List Arg}
    (h : MPI_recv_args op = Except.ok as) :
    as.getLast? = some (Arg.expr (PExpr.var MPI_ERROR)) ∧
    as[as.length - 2]? = some (Arg.expr (PExpr.var MPI_STATUS)) := by
  unfold MPI_recv_args at h
  repeat' split at h
  all_goals try exact Except.noConfusion h
  injection h with h
  subst h
  exact ⟨rfl, rfl⟩

/-- Every successful isend lowering ends in the module-level error slot. -/
theorem MPI_isend_args_slots {op : MPIObj} {as : List Arg}
    (h : MPI_isend_args op = Except.ok as) :
    as.getLast? = some (Arg.expr (PExpr.var MPI_ERROR)) := by
  unfold MPI_isend_args at h
  repeat' split at h
  all_goals try exact Except.noConfusion h
  injection h with h
  subst h
  rfl

/-- Every successful irecv lowering ends in the module-level error slot. -/
theorem MPI_irecv_args_slots {op : MPIObj} {as : List Arg}
    (h : MPI_irecv_args op = Except.ok as) :
    as.getLast? = some (Arg.expr (PExpr.var MPI_ERROR)) := by
  unfold MPI_irecv_args at h
  repeat' split at h
  all_goals try exact Except.noConfusion h
  injection h with h
  subst h
  rfl

/-- Every successful sendrecv lowering ends in the module-level error slot,
preceded immediately by the module-level status slot. -/
theorem MPI_sendrecv_args_slots {op : MPIObj} {as : List Arg}
    (h : MPI_sendrecv_args op = Except.ok as) :
    as.getLast? = some (Arg.expr (PExpr.var MPI_ERROR)) ∧
    as[as.length - 2]? = some (Arg.expr (PExpr.var MPI_STATUS)) := by
  unfold MPI_sendrecv_args at h
  repeat' split at h
  all_goals try exact Except.noConfusion h
  injection h with h
  subst h
  exact ⟨rfl, rfl⟩

/-- Every successful sendrecv_replace lowering ends in the module-level
error slot, preceded immediately by the module-level status slot. -/
theorem MPI_sendrecv_replace_args_slots {op : MPIObj} {as : List Arg}
    (h : MPI_sendrecv_replace_args op = Except.ok as) :
    as.getLast? = some (Arg.expr (PExpr.var MPI_ERROR)) ∧
    as[as.length - 2]? = some (Arg.expr (PExpr.var MPI_STATUS)) := by
  unfold MPI_sendrecv_replace_args at h
  repeat' split at h
  all_goals try exact Except.noConfusion h
  injection h with h
  subst h
  exact ⟨rfl, rfl⟩

/-- Every successful waitall lowering ends in the module-level error slot. -/
theorem MPI_waitall_args_slots {op : MPIObj} {as : List Arg}
    (h : MPI_waitall_args op = Except.ok as) :
    as.getLast? = some (Arg.expr (PExpr.var MPI_ERROR)) := by
  unfold MPI_waitall_args at h
  repeat' split at h
  all_goals try exact Except.noConfusion h
  injection h with h
  subst h
  rfl

/-- Every successful bcast lowering ends in the module-level error slot. -/
theorem MPI_bcast_args_slots {op : MPIObj} {as : List Arg}
    (h : MPI_bcast_args op = Except.ok as) :
    as.getLast? = some (Arg.expr (PExpr.var MPI_ERROR)) := by
  unfold MPI_bcast_args at h
  repeat' split at h
  all_goals try exact Except.noConfusion h
  injection h with h
  subst h
  rfl

/-- Every successful scatter lowering ends in the module-level error slot. -/
theorem MPI_scatter_args_slots {op : MPIObj} {as : List Arg}
    (h : MPI_scatter_args op = Except.ok as) :
    as.getLast? = some (Arg.expr (PExpr.var MPI_ERROR)) := by
  unfold MPI_scatter_args at h
  repeat' split at h
  all_goals try exact Except.noConfusion h
  injection h with h
  subst h
  rfl

/-- Every successful gather lowering ends in the module-level error slot. -/
theorem MPI_gather_args_slots {op : MPIObj} {as : List Arg}
    (h : MPI_gather_args op = Except.ok as) :
    as.getLast? = some (Arg.expr (PExpr.var MPI_ERROR)) := by
  unfold MPI_gather_args at h
  repeat' split at h
  all_goals try exact Except.noConfusion h
  injection h with h
  subst h
  rfl

/-- Inversion of Except.map: a mapped success comes from a success. -/
theorem exceptMap_ok {α β ε : Type} {f : α → β} {x : Except ε α} {b : β}
    (h : Except.map f x = Except.ok b) : ∃ a, x = Except.ok a ∧ b = f a := by
  cases x with
  | error e => exact Except.noConfusion h
  | ok a => exact ⟨a, rfl, by injection h with h; exact h.symm⟩

/-- C1: lowering a Send whose data has shape (n, 2) and dtype Double
produces the call MPI_send with argument list exactly data, 2*n (the
symbolic product of the extents), MPI_DOUBLE (the wire tag derived from the
dtype), dest, tag, comm, ERROR, in that order. -/
theorem send_lower_double_n2 (xn nn : String) (rank : Nat) (alloc : Bool)
    (dest tag comm : PExpr) :
    lowerCall (MPIOp.send ⟨[PExpr.var ⟨PDataType.NativeDouble, xn, rank,
        Shape.seq [Extent.sym nn, Extent.lit 2], alloc⟩, dest, tag, comm]⟩) =
    Except.ok ("MPI_send",
      [Arg.expr (PExpr.var ⟨PDataType.NativeDouble, xn, rank,
         Shape.seq [Extent.sym nn, Extent.lit 2], alloc⟩),
       Arg.count ⟨2, [nn]⟩, Arg.dtypeTag "MPI_DOUBLE",
       Arg.expr dest, Arg.expr tag, Arg.expr comm,
       Arg.expr (PExpr.var MPI_ERROR)]) := rfl

/-- C3: a descriptor with no shape has element count 1, and a descriptor
with shape (n, 2) for a named extent n has the symbolic count 2*n, kept as
a renderable product (it prints as the string 2*n) rather than forced to a
number. -/
theorem count_scalar_one_and_n2_symbolic :
    (∀ (dt : PDataType) (nm : String) (rk : Nat) (al : Bool),
       get_shape (PExpr.var ⟨dt, nm, rk, Shape.noShape, al⟩) = Except.ok ⟨1, []⟩ ∧
       get_shape (PExpr.indexedVar ⟨dt, nm, rk, Shape.noShape, al⟩) = Except.ok ⟨1, []⟩) ∧
    (∀ (dt : PDataType) (nm nn : String) (rk : Nat) (al : Bool),
       get_shape (PExpr.var ⟨dt, nm, rk, Shape.seq [Extent.sym nn, Extent.lit 2], al⟩) =
         Except.ok ⟨2, [nn]⟩) ∧
    (∀ nn : String, renderSymProd ⟨2, [nn]⟩ = "2*" ++ nn) :=
  ⟨fun _ _ _ _ => ⟨rfl, rfl⟩, fun _ _ _ _ _ => rfl, fun _ => rfl⟩

/-- C8: the count of an indexed access is the full count of its base, for
every base and every list of index expressions; in particular indexing a
buffer of shape (n, 2) still counts 2*n. -/
theorem indexedElement_count_is_base_count :
    (∀ (base : PExpr) (idx : List Extent),
       get_shape (PExpr.indexedElement base idx) = get_shape base) ∧
    (∀ (dt : PDataType) (nm nn : String) (rk : Nat) (al : Bool) (idx : List Extent),
       get_shape (PExpr.indexedElement
           (PExpr.indexedVar ⟨dt, nm, rk, Shape.seq [Extent.sym nn, Extent.lit 2], al⟩) idx) =
         Except.ok ⟨2, [nn]⟩) :=
  ⟨fun _ _ => rfl, fun _ _ _ _ _ _ => rfl⟩

/-- C10: a descriptor whose declared shape is an empty sequence resolves to
the empty product 1, exactly as a descriptor with no shape, and a Send over
such a buffer lowers successfully with count 1. -/
theorem empty_shape_count_one (dt : PDataType) (nm : String) (rk : Nat) (al : Bool)
    (dest tag comm : PExpr) :
    get_shape (PExpr.var ⟨dt, nm, rk, Shape.seq [], al⟩) = Except.ok ⟨1, []⟩ ∧
    get_shape (PExpr.var ⟨dt, nm, rk, Shape.seq [], al⟩) =
      get_shape (PExpr.var ⟨dt, nm, rk, Shape.noShape, al⟩) ∧
    lowerCall (MPIOp.send ⟨[PExpr.var ⟨PDataType.NativeDouble, nm, rk, Shape.seq [], al⟩,
        dest, tag, comm]⟩) =
      Except.ok ("MPI_send",
        [Arg.expr (PExpr.var ⟨PDataType.NativeDouble, nm, rk, Shape.seq [], al⟩),
         Arg.count ⟨1, []⟩, Arg.dtypeTag "MPI_DOUBLE",
         Arg.expr dest, Arg.expr tag, Arg.expr comm,
         Arg.expr (PExpr.var MPI_ERROR)]) :=
  ⟨rfl, rfl, rfl⟩

/-- C6: the datatype mapper returns MPI_INT, MPI_REAL, MPI_DOUBLE,
MPI_LOGICAL, MPI_COMPLEX for Integer, Float, Double, Bool, Complex, and a
datatype admits a wire tag exactly when it is one of those five; every
other datatype, Character and aggregate types included, fails with the
Uncovered datatype TypeError. -/
theorem mpi_datatype_total_on_closed_set :
    mpi_datatype PDataType.NativeInteger = Except.ok "MPI_INT" ∧
    mpi_datatype PDataType.NativeFloat = Except.ok "MPI_REAL" ∧
    mpi_datatype PDataType.NativeDouble = Except.ok "MPI_DOUBLE" ∧
    mpi_datatype PDataType.NativeBool = Except.ok "MPI_LOGICAL" ∧
    mpi_datatype PDataType.NativeComplex = Except.ok "MPI_COMPLEX" ∧
    mpi_datatype PDataType.NativeCharacter = Except.error "Uncovered datatype" ∧
    (∀ s : String, mpi_datatype (PDataType.custom s) = Except.error "Uncovered datatype") ∧
    (∀ d : PDataType, (∃ t, mpi_datatype d = Except.ok t) ↔
       d = PDataType.NativeInteger ∨ d = PDataType.NativeFloat ∨
       d = PDataType.NativeDouble ∨ d = PDataType.NativeBool ∨
       d = PDataType.NativeComplex) := by
  refine ⟨rfl, rfl, rfl, rfl, rfl, rfl, fun _ => rfl, fun d => ?_⟩
  cases d <;> simp [mpi_datatype]



/-- C2 counterexample: constructing Send with a malformed communicator
operand does not fail with MalformedOperation; the constructor succeeds and
returns the object holding the operands unchanged, because no operation
class validates its operands at construction. -/
theorem send_construct_malformed_comm_succeeds :
    mpi_new badSendOperands = Except.ok ⟨badSendOperands⟩ := rfl

/-- C2 amended: no variant's constructor validates operand arity or kind -
construction always succeeds and stores the operands unchanged - and a
malformed operand surfaces only at lowering, as for a Send whose data
operand is not a variable, whose lowering fails with the get_shape
TypeError. -/
theorem mpi_construct_never_validates :
    (∀ args : List PExpr, mpi_new args = Except.ok ⟨args⟩) ∧
    MPI_send_args ⟨[PExpr.other "not_a_buffer",
        PExpr.var ⟨PDataType.NativeInteger, "dest", 0, Shape.noShape, false⟩,
        PExpr.var ⟨PDataType.NativeInteger, "tag", 0, Shape.noShape, false⟩,
        PExpr.commWorld]⟩ =
      Except.error "shape is only defined for Variable, IndexedVariable, IndexedElement" :=
  ⟨fun _ => rfl, rfl⟩

/-- C7: the size query lowers to the comm-scoped property mpi_comm_world.size,
but the rank query does not lower to mpi_comm_world.rank: MPI_comm_rank
defines no sympystr hook, so it renders through the printer's default form
MPI_comm_rank(mpi_comm_world), contradicting the claim and the example in
the class's own docstring. -/
theorem comm_rank_render_not_property_query :
    MPI_comm_size_sympystr ⟨[PExpr.commWorld]⟩ = Except.ok "mpi_comm_world.size" ∧
    MPI_comm_rank_render ⟨[PExpr.commWorld]⟩ = "MPI_comm_rank(mpi_comm_world)" ∧
    MPI_comm_rank_render ⟨[PExpr.commWorld]⟩ ≠ "mpi_comm_world.rank" := by
  refine ⟨rfl, rfl, ?_⟩
  decide

/-- C4: in every successfully lowered Recv the status slot sits immediately
before the final error slot, and a successfully lowered Send whose operands
are not themselves the status variable never contains the status slot. -/
theorem recv_has_status_send_has_none :
    (∀ (op : MPIObj) (nm : String) (as : List Arg),
       lowerCall (MPIOp.recv op) = Except.ok (nm, as) →
       as.getLast? = some (Arg.expr (PExpr.var MPI_ERROR)) ∧
       as[as.length - 2]? = some (Arg.expr (PExpr.var MPI_STATUS))) ∧
    (∀ (op : MPIObj) (nm : String) (as : List Arg),
       lowerCall (MPIOp.send op) = Except.ok (nm, as) →
       (∀ a ∈ op.args, a ≠ PExpr.var MPI_STATUS) →
       Arg.expr (PExpr.var MPI_STATUS) ∉ as) := by
  constructor
  · intro op nm as h
    simp only [lowerCall] at h
    obtain ⟨as2, hx, hp⟩ := exceptMap_ok h
    injection hp with h1 h2
    subst h2
    exact MPI_recv_args_slots hx
  · intro op nm as h hop
    simp only [lowerCall] at h
    obtain ⟨as2, hx, hp⟩ := exceptMap_ok h
    injection hp with h1 h2
    subst h2
    obtain ⟨data, dest, tag, comm, cnt, dt, t, h0, hd1, hd2, hd3, _, _, _, hform⟩ :=
      MPI_send_args_inv hx
    subst hform
    intro hmem
    simp only [List.mem_cons, List.not_mem_nil, or_false] at hmem
    rcases hmem with h' | h' | h' | h' | h' | h' | h'
    · injection h' with hh
      exact hop data (getArg_mem h0) hh.symm
    · exact Arg.noConfusion h'
    · exact Arg.noConfusion h'
    · injection h' with hh
      exact hop dest (getArg_mem hd1) hh.symm
    · injection h' with hh
      exact hop tag (getArg_mem hd2) hh.symm
    · injection h' with hh
      exact hop comm (getArg_mem hd3) hh.symm
    · injection h' with hh
      injection hh with hv
      exact absurd hv (by decide)

/-- C5: in every successfully lowered AsyncSend and AsyncRecv the request
operand is passed through unchanged into the position immediately before
the final error slot, and the lowered list contains no status slot when the
operands are not themselves the status variable. -/
theorem async_request_before_error :
    (∀ (op : MPIObj) (nm : String) (as : List Arg) (req : PExpr),
       lowerCall (MPIOp.isend op) = Except.ok (nm, as) →
       op.getArg 3 = Except.ok req →
       as.getLast? = some (Arg.expr (PExpr.var MPI_ERROR)) ∧
       as[as.length - 2]? = some (Arg.expr req) ∧
       ((∀ a ∈ op.args, a ≠ PExpr.var MPI_STATUS) →
        Arg.expr (PExpr.var MPI_STATUS) ∉ as)) ∧
    (∀ (op : MPIObj) (nm : String) (as : List Arg) (req : PExpr),
       lowerCall (MPIOp.irecv op) = Except.ok (nm, as) →
       op.getArg 3 = Except.ok req →
       as.getLast? = some (Arg.expr (PExpr.var MPI_ERROR)) ∧
       as[as.length - 2]? = some (Arg.expr req) ∧
       ((∀ a ∈ op.args, a ≠ PExpr.var MPI_STATUS) →
        Arg.expr (PExpr.var MPI_STATUS) ∉ as)) := by
  constructor
  · intro op nm as req h hreq
    simp only [lowerCall] at h
    obtain ⟨as2, hx, hp⟩ := exceptMap_ok h
    injection hp with h1 h2
    subst h2
    obtain ⟨data, dest, tag, request, comm, cnt, dt, t,
        h0, hd1, hd2, hd3, hd4, hs, hda, hmd, hform⟩ := MPI_isend_args_inv hx
    subst hform
    rw [hd3] at hreq
    injection hreq with hreq
    subst hreq
    refine ⟨rfl, rfl, ?_⟩
    intro hop hmem
    simp only [List.mem_cons, List.not_mem_nil, or_false] at hmem
    rcases hmem with h' | h' | h' | h' | h' | h' | h' | h'
    · injection h' with hh
      exact hop data (getArg_mem h0) hh.symm
    · exact Arg.noConfusion h'
    · exact Arg.noConfusion h'
    · injection h' with hh
      exact hop dest (getArg_mem hd1) hh.symm
    · injection h' with hh
      exact hop tag (getArg_mem hd2) hh.symm
    · injection h' with hh
      exact hop comm (getArg_mem hd4) hh.symm
    · injection h' with hh
      exact hop request (getArg_mem hd3) hh.symm
    · injection h' with hh
      injection hh with hv
      exact absurd hv (by decide)
  · intro op nm as req h hreq
    simp only [lowerCall] at h
    obtain ⟨as2, hx, hp⟩ := exceptMap_ok h
    injection hp with h1 h2
    subst h2
    obtain ⟨data, source, tag, request, comm, cnt, dt, t,
        h0, hd1, hd2, hd3, hd4, hs, hda, hmd, hform⟩ := MPI_irecv_args_inv hx
    subst hform
    rw [hd3] at hreq
    injection hreq with hreq
    subst hreq
    refine ⟨rfl, rfl, ?_⟩
    intro hop hmem
    simp only [List.mem_cons, List.not_mem_nil, or_false] at hmem
    rcases hmem with h' | h' | h' | h' | h' | h' | h' | h'
    · injection h' with hh
      exact hop data (getArg_mem h0) hh.symm
    · exact Arg.noConfusion h'
    · exact Arg.noConfusion h'
    · injection h' with hh
      exact hop source (getArg_mem hd1) hh.symm
    · injection h' with hh
      exact hop tag (getArg_mem hd2) hh.symm
    · injection h' with hh
      exact hop comm (getArg_mem hd4) hh.symm
    · injection h' with hh
      exact hop request (getArg_mem hd3) hh.symm
    · injection h' with hh
      injection hh with hv
      exact absurd hv (by decide)

/-- C9: every successfully lowered call-style operation ends its argument
list with the single module-level error slot MPI_ERROR, and each of the
variants that write a status record places the single module-level status
slot MPI_STATUS immediately before it; no lowering ever constructs a fresh
per-operation slot. -/
theorem error_status_slots_uniform :
    ∀ (k : MPIOp) (nm : String) (as : List Arg),
      lowerCall k = Except.ok (nm, as) →
      as.getLast? = some (Arg.expr (PExpr.var MPI_ERROR)) ∧
      (k.usesStatusSlot = true →
       as[as.length - 2]? = some (Arg.expr (PExpr.var MPI_STATUS))) := by
  intro k nm as h
  cases k with
  | send op =>
      simp only [lowerCall] at h
      obtain ⟨as2, hx, hp⟩ := exceptMap_ok h
      injection hp with h1 h2
      subst h2
      exact ⟨MPI_send_args_slots hx, fun hb => by simp [MPIOp.usesStatusSlot] at hb⟩
  | recv op =>
      simp only [lowerCall] at h
      obtain ⟨as2, hx, hp⟩ := exceptMap_ok h
      injection hp with h1 h2
      subst h2
      exact ⟨(MPI_recv_args_slots hx).1, fun _ => (MPI_recv_args_slots hx).2⟩
  | isend op =>
      simp only [lowerCall] at h
      obtain ⟨as2, hx, hp⟩ := exceptMap_ok h
      injection hp with h1 h2
      subst h2
      exact ⟨MPI_isend_args_slots hx, fun hb => by simp [MPIOp.usesStatusSlot] at hb⟩
  | irecv op =>
      simp only [lowerCall] at h
      obtain ⟨as2, hx, hp⟩ := exceptMap_ok h
      injection hp with h1 h2
      subst h2
      exact ⟨MPI_irecv_args_slots hx, fun hb => by simp [MPIOp.usesStatusSlot] at hb⟩
  | sendrecv op =>
      simp only [lowerCall] at h
      obtain ⟨as2, hx, hp⟩ := exceptMap_ok h
      injection hp with h1 h2
      subst h2
      exact ⟨(MPI_sendrecv_args_slots hx).1, fun _ => (MPI_sendrecv_args_slots hx).2⟩
  | sendrecvReplace op =>
      simp only [lowerCall] at h
      obtain ⟨as2, hx, hp⟩ := exceptMap_ok h
      injection hp with h1 h2
      subst h2
      exact ⟨(MPI_sendrecv_replace_args_slots hx).1,
        fun _ => (MPI_sendrecv_replace_args_slots hx).2⟩
  | waitall op =>
      simp only [lowerCall] at h
      obtain ⟨as2, hx, hp⟩ := exceptMap_ok h
      injection hp with h1 h2
      subst h2
      exact ⟨MPI_waitall_args_slots hx, fun hb => by simp [MPIOp.usesStatusSlot] at hb⟩
  | bcast op =>
      simp only [lowerCall] at h
      obtain ⟨as2, hx, hp⟩ := exceptMap_ok h
      injection hp with h1 h2
      subst h2
      exact ⟨MPI_bcast_args_slots hx, fun hb => by simp [MPIOp.usesStatusSlot] at hb⟩
  | scatter op =>
      simp only [lowerCall] at h
      obtain ⟨as2, hx, hp⟩ := exceptMap_ok h
      injection hp with h1 h2
      subst h2
      exact ⟨MPI_scatter_args_slots hx, fun hb => by simp [MPIOp.usesStatusSlot] at hb⟩
  | gather op =>
      simp only [lowerCall] at h
      obtain ⟨as2, hx, hp⟩ := exceptMap_ok h
      injection hp with h1 h2
      subst h2
      exact ⟨MPI_gather_args_slots hx, fun hb => by simp [MPIOp.usesStatusSlot] at hb⟩

/-- C4 witness: the docstring Recv lowering carries status then error at its
end, and the docstring Send lowering contains no status slot. -/
theorem recv_has_status_send_has_none_witness :
    (recvArgsW.getLast? = some (Arg.expr (PExpr.var MPI_ERROR)) ∧
     recvArgsW[recvArgsW.length - 2]? = some (Arg.expr (PExpr.var MPI_STATUS))) ∧
    Arg.expr (PExpr.var MPI_STATUS) ∉ sendArgsW :=
  ⟨recv_has_status_send_has_none.1 ⟨[xW, srcW, tagW, PExpr.commWorld]⟩
     "MPI_recv" recvArgsW rfl,
   recv_has_status_send_has_none.2 ⟨[xW, destW, tagW, PExpr.commWorld]⟩
     "MPI_send" sendArgsW rfl (by decide)⟩

/-- C5 witness: the docstring isend and irecv lowerings carry the requests
operand immediately before the final error slot and no status slot. -/
theorem async_request_before_error_witness :
    (isendArgsW.getLast? = some (Arg.expr (PExpr.var MPI_ERROR)) ∧
     isendArgsW[isendArgsW.length - 2]? = some (Arg.expr reqW) ∧
     Arg.expr (PExpr.var MPI_STATUS) ∉ isendArgsW) ∧
    (irecvArgsW.getLast? = some (Arg.expr (PExpr.var MPI_ERROR)) ∧
     irecvArgsW[irecvArgsW.length - 2]? = some (Arg.expr reqW) ∧
     Arg.expr (PExpr.var MPI_STATUS) ∉ irecvArgsW) := by
  have h1 := async_request_before_error.1 ⟨[xW, destW, tagW, reqW, PExpr.commWorld]⟩
    "MPI_isend" isendArgsW reqW rfl rfl
  have h2 := async_request_before_error.2 ⟨[xW, srcW, tagW, reqW, PExpr.commWorld]⟩
    "MPI_irecv" irecvArgsW reqW rfl rfl
  exact ⟨⟨h1.1, h1.2.1, h1.2.2 (by decide)⟩, ⟨h2.1, h2.2.1, h2.2.2 (by decide)⟩⟩

/-- C9 witness: the docstring Recv lowering ends with the module-level
error slot and places the module-level status slot just before it. -/
theorem error_status_slots_uniform_witness :
    recvArgsW.getLast? = some (Arg.expr (PExpr.var MPI_ERROR)) ∧
    recvArgsW[recvArgsW.length - 2]? = some (Arg.expr (PExpr.var MPI_STATUS)) := by
  have h := error_status_slots_uniform (MPIOp.recv ⟨[xW, srcW, tagW, PExpr.commWorld]⟩)
    "MPI_recv" recvArgsW rfl
  exact ⟨h.1, h.2 rfl⟩
